import Mathlib

/-!
Verification of the Machine-Telemetry ETL pipeline
(`project/database_and_model_tools.py` and `project/db.py`).

The Python code is shallowly embedded:

* pandas dataframes become `DataFrame` (a column-name list plus rows of
  optional cells; a `none` cell models a missing value / NaN / SQL NULL);
* the PostgreSQL connection becomes an explicit `PgState` (committed rows
  plus the pending rows of the open transaction), and the single
  failure point of the batch insert (`execute_values`) is an explicit
  boolean parameter;
* Python exceptions become `Except` values; a function that
  catches-and-logs returns a plain value, a function that re-raises
  returns `Except.error`;
* serialized model/scaler artifacts become `Artifact` values: the
  optional `feature_names_in_` attribute plus a writability flag (a
  read-only attribute raises `AttributeError` on assignment);
* Python `str.lower()` becomes `pyLower` (per-character ASCII lowering,
  exactly `Char.toLower`), and Python `in` on strings becomes list
  infix on the character lists.
-/

/-! ## Python string primitives -/

/-- Embedding of Python `str.lower()` (ASCII range, which is all the code
uses): lower each character. -/
def pyLower (s : String) : String := ⟨s.data.map Char.toLower⟩

/-- Embedding of the Python membership test `needle in haystack` on
strings: the needle is a contiguous substring of the haystack. -/
def pyContains (needle haystack : String) : Bool :=
  decide (needle.data <:+: haystack.data)

/-- Embedding of Python truthiness for an optional string field
(`machine.get(k)` is falsy when the key is absent, `None`, or `""`). -/
def pyTruthy : Option String → Bool
  | some s => !s.isEmpty
  | none => false

theorem charOfNat_toNat (n : Nat) (h : n.isValidChar) : (Char.ofNat n).toNat = n := by
  simp only [Char.ofNat, h, dite_true, Char.ofNatAux, Char.toNat, UInt32.toNat,
    BitVec.toNat_ofNatLt]

theorem charToLower_idem (c : Char) : Char.toLower (Char.toLower c) = Char.toLower c := by
  by_cases h : c.toNat ≥ 65 ∧ c.toNat ≤ 90
  · have h1 : c.toLower = Char.ofNat (c.toNat + 32) := by
      simp [Char.toLower, h]
    have hv : (c.toNat + 32).isValidChar := Or.inl (by omega)
    have ht : (Char.ofNat (c.toNat + 32)).toNat = c.toNat + 32 := charOfNat_toNat _ hv
    have h2 : ¬((Char.ofNat (c.toNat + 32)).toNat ≥ 65 ∧
        (Char.ofNat (c.toNat + 32)).toNat ≤ 90) := by
      rw [ht]
      omega
    rw [h1]
    simp [Char.toLower, h2]
  · have h1 : c.toLower = c := by simp [Char.toLower, h]
    rw [h1, h1]

theorem mapToLower_idem (l : List Char) :
    (l.map Char.toLower).map Char.toLower = l.map Char.toLower := by
  induction l with
  | nil => rfl
  | cons c cs ih => simp only [List.map_cons, charToLower_idem, ih]

theorem pyLower_idem (s : String) : pyLower (pyLower s) = pyLower s := by
  unfold pyLower
  exact congrArg String.mk (mapToLower_idem s.data)

/-! ## Association-list facts (Python `dict.get`) -/

theorem lookup_val_mem {α β : Type} [BEq α] [LawfulBEq α] {a : α} {b : β}
    {l : List (α × β)} (h : List.lookup a l = some b) : b ∈ l.map Prod.snd := by
  induction l with
  | nil => simp [List.lookup] at h
  | cons p ps ih =>
    cases p with
    | mk k v =>
      rw [List.lookup] at h
      cases hk : a == k with
      | true => rw [hk] at h; simp at h; simp [h]
      | false => rw [hk] at h; simp at h; simp [ih h]

theorem lookup_eq_none_of_keys_ne {β : Type} {a : String} {l : List (String × β)}
    (h : ∀ p ∈ l, p.1 ≠ a) : List.lookup a l = none := by
  induction l with
  | nil => rfl
  | cons p ps ih =>
    cases p with
    | mk k v =>
      rw [List.lookup]
      have hk : ¬(a == k) = true := by
        intro hab
        exact h (k, v) (by simp) (by simpa using (beq_iff_eq.mp hab).symm)
      rw [Bool.eq_false_iff.mpr hk]
      exact ih (fun p hp => h p (List.mem_cons_of_mem _ hp))

/-! ## Data model of the telemetry ingestion (`DataIngestor`) -/

/-- A cell value of the telemetry dataframe: a string or a number
(numbers are modelled as rationals; the code does no arithmetic on them,
it only stores them). -/
inductive Val where
  | vStr : String → Val
  | vNum : ℚ → Val
deriving DecidableEq, Repr

/-- A pandas dataframe: named columns, and one list of optional cells per
row (a `none` cell models a missing value / NaN). -/
structure DataFrame where
  cols : List String
  rows : List (List (Option Val))
deriving DecidableEq, Repr

/-- `DataIngestor.required_columns`: the 17 canonical telemetry columns,
in the fixed insert order. -/
def required_columns : List String :=
  [("machineid"), ("type"), ("location"), ("timestamp"), ("enginetemperature"),
   ("fuelconsumption"), ("vibrationlevel"), ("humidity"), ("pressure"),
   ("poweroutput"), ("operatinghours"), ("status"), ("status_encoded"),
   ("timestamp_epoch"), ("hour"), ("dayofweek"), ("month")]

/-- `DataIngestor.column_mapping`: case-sensitive source-name to
canonical-name mapping. -/
def column_mapping : List (String × String) :=
  [(("MachineID"), ("machineid")), (("Type"), ("type")), (("Location"), ("location")),
   (("Timestamp"), ("timestamp")), (("EngineTemperature"), ("enginetemperature")),
   (("FuelConsumption"), ("fuelconsumption")), (("VibrationLevel"), ("vibrationlevel")),
   (("Humidity"), ("humidity")), (("Pressure"), ("pressure")),
   (("PowerOutput"), ("poweroutput")), (("OperatingHours"), ("operatinghours")),
   (("Status"), ("status")), (("Status_encoded"), ("status_encoded")),
   (("Timestamp_epoch"), ("timestamp_epoch")), (("hour"), ("hour")),
   (("dayofweek"), ("dayofweek")), (("month"), ("month"))]

/-- The per-column default table of `DataIngestor._clean_dataframe`
(the `fillna` argument): 8 entries. -/
def default_fills : List (String × Val) :=
  [(("enginetemperature"), Val.vNum 75), (("fuelconsumption"), Val.vNum 10),
   (("vibrationlevel"), Val.vNum 3), (("humidity"), Val.vNum 65),
   (("pressure"), Val.vNum 950), (("poweroutput"), Val.vNum 200),
   (("operatinghours"), Val.vNum 0), (("status"), Val.vStr ("Unknown"))]

/-- One column rename of `DataIngestor._convert_column_names`:
`self.column_mapping.get(col, col.lower())`. -/
def convertCol (c : String) : String :=
  (List.lookup c column_mapping).getD (pyLower c)

/-- `DataIngestor._convert_column_names`: rename every column through the
mapping, lowercasing unmapped names; rows are untouched. -/
def convert_column_names (df : DataFrame) : DataFrame :=
  { cols := df.cols.map convertCol, rows := df.rows }

/-- The `fillna` step of `DataIngestor._clean_dataframe` on one row:
a missing cell under a column of the default table gets the default;
other cells are untouched. -/
def fillRow : List String → List (Option Val) → List (Option Val)
  | c :: cs, v :: vs =>
      (match v with
       | some x => some x
       | none => List.lookup c default_fills) :: fillRow cs vs
  | _, _ => []

/-- `DataIngestor._clean_dataframe`: `fillna` with the default table,
then lowercase every column name. -/
def clean_dataframe (df : DataFrame) : DataFrame :=
  { cols := df.cols.map pyLower, rows := df.rows.map (fillRow df.cols) }

/-- `row.get(c, None)`: the cell of the row under the (first) column
named `c`, `none` when the column is absent. -/
def rowGet : List String → List (Option Val) → String → Option Val
  | c0 :: cs, v :: vs, c => if c0 == c then v else rowGet cs vs c
  | _, _, _ => none

/-- The row tuple built by `DataIngestor._insert_rows`:
`tuple(row.get(c, None) for c in self.required_columns)`. -/
def tupleOf (df : DataFrame) (r : List (Option Val)) : List (Option Val) :=
  required_columns.map (rowGet df.cols r)

/-- The database connection state: rows committed to `telemetry`, plus
the pending (uncommitted) rows of the open transaction. -/
structure PgState where
  committed : List (List (Option Val))
  pending : List (List (Option Val))
deriving DecidableEq, Repr

/-- `psycopg2.extras.execute_values` on the telemetry insert: on success
the batch joins the open transaction; on failure the state is unchanged
and the exception is signalled (`ok = false` is the failure switch for
this single fallible statement). -/
def execValuesInsert (s : PgState) (rows : List (List (Option Val))) (ok : Bool) :
    PgState × Bool :=
  if ok then ({ s with pending := s.pending ++ rows }, true) else (s, false)

/-- `conn.commit()`: the pending rows become committed. -/
def commitConn (s : PgState) : PgState :=
  { committed := s.committed ++ s.pending, pending := [] }

/-- `conn.rollback()`: the pending rows are discarded. -/
def rollbackConn (s : PgState) : PgState :=
  { s with pending := [] }

/-- `DataIngestor._insert_rows`: build one tuple per row, run the single
multi-row insert, commit on success and return the row count; roll back
and re-raise on failure. -/
def insertRowsOp (s : PgState) (df : DataFrame) (ok : Bool) :
    PgState × Except Unit Nat :=
  let rows := df.rows.map (tupleOf df)
  match execValuesInsert s rows ok with
  | (s1, true) => (commitConn s1, Except.ok rows.length)
  | (s1, false) => (rollbackConn s1, Except.error ())

/-- `DataIngestor.ingest_csv`: read the file (`readRes` is the outcome of
`pd.read_csv`), convert column names, clean, insert.  Every failure is
logged and re-raised (the `except ... raise` keeps the exception). -/
def ingest_csv (s : PgState) (readRes : Except Unit DataFrame) (ok : Bool) :
    PgState × Except Unit Nat :=
  match readRes with
  | Except.error e => (s, Except.error e)
  | Except.ok df => insertRowsOp s (clean_dataframe (convert_column_names df)) ok

/-- `DatabaseInitializer.setup_complete_database`: schema init, optional
CSV ingestion, verification — the whole body inside one
`try/except` whose handler only logs.  `initRes` and `verifyRes` are the
outcomes of `init_db` and `verify_database_setup`; `csv` is `none` when
no path is given or the file does not exist, otherwise the `read_csv`
outcome. -/
def setup_complete_database (initRes : Except Unit Unit)
    (csv : Option (Except Unit DataFrame)) (ok : Bool)
    (verifyRes : Except Unit Unit) (s : PgState) : PgState × Except Unit Unit :=
  match initRes with
  | Except.error _ => (s, Except.ok ())
  | Except.ok _ =>
    match csv with
    | none =>
      match verifyRes with
      | _ => (s, Except.ok ())
    | some readRes =>
      match ingest_csv s readRes ok with
      | (s1, Except.error _) => (s1, Except.ok ())
      | (s1, Except.ok _) =>
        match verifyRes with
        | _ => (s1, Except.ok ())

/-! ## First facts about the ingestion -/

/-- C3: for every readable source file, `ingest_csv` returns exactly the
number of rows read: column conversion and cleaning change values only
(the row count after cleaning is unchanged), and the insert stores one
tuple per input row. -/
theorem ingest_csv_returns_row_count (s : PgState) (df : DataFrame) :
    (ingest_csv s (Except.ok df) true).2 = Except.ok df.rows.length
    ∧ (clean_dataframe (convert_column_names df)).rows.length = df.rows.length := by
  constructor
  · simp [ingest_csv, insertRowsOp, execValuesInsert, clean_dataframe, convert_column_names]
  · simp [clean_dataframe, convert_column_names]

/-! ## Default filling: which columns are guaranteed populated -/

theorem rowGet_fillRow_isSome (cols : List String) (r : List (Option Val)) (c : String)
    (hlen : r.length = cols.length) (hc : c ∈ cols)
    (hdef : (List.lookup c default_fills).isSome = true) :
    (rowGet cols (fillRow cols r) c).isSome = true := by
  induction cols generalizing r with
  | nil => simp at hc
  | cons c0 cs ih =>
    cases r with
    | nil => simp at hlen
    | cons v vs =>
      simp only [fillRow, rowGet]
      by_cases he : (c0 == c) = true
      · rw [if_pos he]
        cases v with
        | some x => rfl
        | none =>
          have hc0 : c0 = c := beq_iff_eq.mp he
          rw [hc0]
          exact hdef
      · rw [if_neg he]
        have hcs : c ∈ cs := by
          cases List.mem_cons.mp hc with
          | inl h => exact absurd (beq_iff_eq.mpr h.symm) he
          | inr h => exact h
        exact ih vs (by simpa using hlen) hcs

theorem mapping_values_lower_fixed :
    ∀ v ∈ column_mapping.map Prod.snd, pyLower v = v := by decide

theorem convertCol_lower_fixed (c : String) : pyLower (convertCol c) = convertCol c := by
  unfold convertCol
  cases h : List.lookup c column_mapping with
  | some v => simpa using mapping_values_lower_fixed v (lookup_val_mem h)
  | none => simpa using pyLower_idem c

theorem map_pyLower_of_fixed (l : List String) (h : ∀ x ∈ l, pyLower x = x) :
    l.map pyLower = l := by
  induction l with
  | nil => rfl
  | cons x xs ih =>
    simp only [List.map_cons, h x (by simp), ih (fun y hy => h y (List.mem_cons_of_mem _ hy))]

/-- The lowercasing pass of `_clean_dataframe` is a no-op after
`_convert_column_names`: converted names are already lowercase. -/
theorem clean_cols_eq (df : DataFrame) :
    (clean_dataframe (convert_column_names df)).cols = (convert_column_names df).cols := by
  show (df.cols.map convertCol).map pyLower = df.cols.map convertCol
  apply map_pyLower_of_fixed
  intro x hx
  rcases List.mem_map.mp hx with ⟨y, _, hy⟩
  rw [← hy]
  exact convertCol_lower_fixed y

/-- C1 (amended): only the 8 columns of the default table are guaranteed
populated in the stored tuple, and only when the column is present in the
converted source frame; the other canonical columns retain nulls. -/
theorem ingest_fills_default_columns (df : DataFrame) (s : PgState)
    (hwf : ∀ r ∈ df.rows, r.length = df.cols.length)
    (hpend : s.pending = []) :
    ((ingest_csv s (Except.ok df) true).1.committed
        = s.committed
          ++ (clean_dataframe (convert_column_names df)).rows.map
              (tupleOf (clean_dataframe (convert_column_names df))))
    ∧ ∀ r ∈ df.rows, ∀ (j : Nat) (c : String), required_columns[j]? = some c →
        (List.lookup c default_fills).isSome = true →
        c ∈ (convert_column_names df).cols →
        (((tupleOf (clean_dataframe (convert_column_names df))
            (fillRow (convert_column_names df).cols r))[j]?.getD none).isSome) = true := by
  constructor
  · simp [ingest_csv, insertRowsOp, execValuesInsert, commitConn, hpend]
  · intro r hr j c hj hdef hcc
    have hlen : r.length = (convert_column_names df).cols.length := by
      simpa [convert_column_names] using hwf r hr
    unfold tupleOf
    rw [List.getElem?_map, hj]
    simp only [Option.map_some', Option.getD_some]
    rw [clean_cols_eq]
    exact rowGet_fillRow_isSome _ r c hlen hcc hdef

/-! ## Concrete ingestion inputs used to evaluate the theorems -/

/-- A tiny source file: two columns, one row, both cells missing.  After
conversion the columns are `enginetemperature` (has a default) and
`machineid` (has none). -/
def dfW : DataFrame :=
  { cols := [("EngineTemperature"), ("MachineID")], rows := [[none, none]] }

/-- A fresh connection state: empty telemetry table, no open transaction. -/
def pg0 : PgState := { committed := [], pending := [] }

theorem ingest_fills_default_columns_witness :
    ((ingest_csv pg0 (Except.ok dfW) true).1.committed
        = pg0.committed
          ++ (clean_dataframe (convert_column_names dfW)).rows.map
              (tupleOf (clean_dataframe (convert_column_names dfW))))
    ∧ (((tupleOf (clean_dataframe (convert_column_names dfW))
          (fillRow (convert_column_names dfW).cols [none, none]))[4]?.getD none).isSome)
        = true :=
  ⟨(ingest_fills_default_columns dfW pg0 (by decide) rfl).1,
   (ingest_fills_default_columns dfW pg0 (by decide) rfl).2 [none, none] (by decide)
     4 ("enginetemperature") (by decide) (by decide) (by decide)⟩

/-- C1 (counterexample): ingesting a row whose `machineid` cell is missing
stores a tuple whose `machineid` entry (and every entry for an absent
column) is null — only `enginetemperature` is defaulted to 75.  The
stored row is not fully populated, refuting the 17-column invariant. -/
theorem ingest_leaves_missing_machineid_null :
    (ingest_csv pg0 (Except.ok dfW) true).1.committed
      = [[none, none, none, none, some (Val.vNum 75), none, none, none, none, none,
          none, none, none, none, none, none, none]] := by decide

/-- C4: the batch insert is all-or-nothing: with no transaction pending,
a successful run commits the whole batch exactly once; a failing run
leaves the committed table unchanged, discards the pending rows, and the
exception propagates out of `ingest_csv`. -/
theorem insert_all_or_nothing (s : PgState) (df : DataFrame) (hpend : s.pending = []) :
    ((ingest_csv s (Except.ok df) true).1.committed
        = s.committed
          ++ (clean_dataframe (convert_column_names df)).rows.map
              (tupleOf (clean_dataframe (convert_column_names df))))
    ∧ (ingest_csv s (Except.ok df) true).1.pending = []
    ∧ (ingest_csv s (Except.ok df) false).1.committed = s.committed
    ∧ (ingest_csv s (Except.ok df) false).1.pending = []
    ∧ (ingest_csv s (Except.ok df) false).2 = Except.error () := by
  refine ⟨?_, ?_, ?_, ?_, ?_⟩ <;>
    simp [ingest_csv, insertRowsOp, execValuesInsert, commitConn, rollbackConn, hpend]

theorem insert_all_or_nothing_witness :
    ((ingest_csv pg0 (Except.ok dfW) true).1.committed
        = pg0.committed
          ++ (clean_dataframe (convert_column_names dfW)).rows.map
              (tupleOf (clean_dataframe (convert_column_names dfW))))
    ∧ (ingest_csv pg0 (Except.ok dfW) true).1.pending = []
    ∧ (ingest_csv pg0 (Except.ok dfW) false).1.committed = pg0.committed
    ∧ (ingest_csv pg0 (Except.ok dfW) false).1.pending = []
    ∧ (ingest_csv pg0 (Except.ok dfW) false).2 = Except.error () :=
  insert_all_or_nothing pg0 dfW rfl

/-- C8: `setup_complete_database` never propagates an exception: whatever
the outcomes of schema initialization, CSV reading, the insert
transaction and verification, the operation finishes normally (the one
`try/except` only logs). -/
theorem setup_complete_database_never_raises (initRes : Except Unit Unit)
    (csv : Option (Except Unit DataFrame)) (ok : Bool)
    (verifyRes : Except Unit Unit) (s : PgState) :
    (setup_complete_database initRes csv ok verifyRes s).2 = Except.ok () := by
  unfold setup_complete_database
  cases initRes with
  | error e => rfl
  | ok u =>
    cases csv with
    | none => rfl
    | some readRes =>
      rcases hi : ingest_csv s readRes ok with ⟨s1, res⟩
      cases res with
      | error e => simp [hi]
      | ok n =>
        cases verifyRes with
        | error e2 => simp [hi]
        | ok u2 => simp [hi]

/-! ## Metadata fixer (`FeatureNamesFixer`) -/

/-- `FeatureNamesFixer.feature_mapping`: explicit source-name to
canonical-name translations for artifact feature lists. -/
def feature_mapping : List (String × String) :=
  [(("FuelConsumption"), ("fuelconsumption")), (("VibrationLevel"), ("vibrationlevel")),
   (("Humidity"), ("humidity")), (("Pressure"), ("pressure")),
   (("PowerOutput"), ("poweroutput")), (("OperatingHours"), ("operatinghours")),
   (("Timestamp_epoch"), ("timestamp_epoch")), (("Hour"), ("hour")),
   (("DayOfWeek"), ("dayofweek")), (("Month"), ("month"))]

/-- One feature-name translation:
`self.feature_mapping.get(f, f.lower())`. -/
def translateFeature (f : String) : String :=
  (List.lookup f feature_mapping).getD (pyLower f)

/-- A deserialized model/scaler artifact: the `feature_names_in_`
attribute when the object exposes it, and whether assigning to that
attribute succeeds (a read-only attribute raises `AttributeError`). -/
structure Artifact where
  feature_names : Option (List String)
  writable : Bool
deriving DecidableEq, Repr

/-- The observable outcome of one fix operation: the returned boolean,
and the artifact written back by `joblib.dump` (`none` when the function
never re-serializes). -/
structure FixOutcome where
  success : Bool
  saved : Option Artifact
deriving DecidableEq, Repr

/-- `FeatureNamesFixer.fix_model_features`.  The argument is the file at
`model_path`: `none` when the file does not exist.  A rejected attribute
write (`AttributeError`) is caught by the inner handler, logged as a
warning, and the artifact is still dumped unchanged; the function then
returns `True`. -/
def fix_model_features (file : Option Artifact) : FixOutcome :=
  match file with
  | none => { success := false, saved := none }
  | some model =>
    match model.feature_names with
    | some original =>
      if model.writable then
        { success := true,
          saved := some { model with feature_names := some (original.map translateFeature) } }
      else
        { success := true, saved := some model }
    | none => { success := true, saved := none }

/-- `FeatureNamesFixer.fix_scaler_features`.  Unlike the model variant,
the attribute write is not guarded: a rejected write escapes to the
top-level handler, which logs an error and returns `False` without
re-serializing. -/
def fix_scaler_features (file : Option Artifact) : FixOutcome :=
  match file with
  | none => { success := false, saved := none }
  | some scaler =>
    match scaler.feature_names with
    | some original =>
      if scaler.writable then
        { success := true,
          saved := some { scaler with feature_names := some (original.map translateFeature) } }
      else
        { success := false, saved := none }
    | none => { success := true, saved := none }

/-- A scaler artifact with a read-only feature-name attribute. -/
def readOnlyArtifact : Artifact :=
  { feature_names := some [("FuelConsumption"), ("Humidity")], writable := false }

/-- C2 (counterexample): for a scaler artifact whose feature-name
attribute is read-only, the fix returns failure and does not
re-serialize, contradicting the claimed log-warning-and-save-unchanged
behaviour. -/
theorem fix_scaler_readonly_fails :
    fix_scaler_features (some readOnlyArtifact) = { success := false, saved := none } := by
  decide

/-- C2 (amended): the claimed behaviour holds for model artifacts only.
On a read-only attribute, `fix_model_features` returns success and
re-serializes the artifact unchanged, while `fix_scaler_features` lets
the rejection escape to its top-level handler and returns failure
without re-serializing. -/
theorem fix_readonly_split (a : Artifact) (fs : List String)
    (hf : a.feature_names = some fs) (hw : a.writable = false) :
    fix_model_features (some a) = { success := true, saved := some a }
    ∧ fix_scaler_features (some a) = { success := false, saved := none } := by
  constructor
  · simp [fix_model_features, hf, hw]
  · simp [fix_scaler_features, hf, hw]

theorem fix_readonly_split_witness :
    fix_model_features (some readOnlyArtifact)
        = { success := true, saved := some readOnlyArtifact }
    ∧ fix_scaler_features (some readOnlyArtifact) = { success := false, saved := none } :=
  fix_readonly_split readOnlyArtifact [("FuelConsumption"), ("Humidity")] rfl rfl

/-- C7: an existing artifact that does not expose the feature-name
attribute is treated as success by both fix operations: `True` is
returned, nothing is raised, and the artifact is not modified (no dump
at all). -/
theorem fix_no_attribute_succeeds (a : Artifact) (h : a.feature_names = none) :
    fix_model_features (some a) = { success := true, saved := none }
    ∧ fix_scaler_features (some a) = { success := true, saved := none } := by
  constructor
  · simp [fix_model_features, h]
  · simp [fix_scaler_features, h]

/-- An artifact with no feature-name attribute at all. -/
def opaqueArtifact : Artifact := { feature_names := none, writable := true }

theorem fix_no_attribute_succeeds_witness :
    fix_model_features (some opaqueArtifact) = { success := true, saved := none }
    ∧ fix_scaler_features (some opaqueArtifact) = { success := true, saved := none } :=
  fix_no_attribute_succeeds opaqueArtifact rfl

/-! ## Idempotence of the feature-name translation (C10) -/

theorem feature_values_lower_fixed :
    ∀ v ∈ feature_mapping.map Prod.snd, pyLower v = v := by decide

theorem feature_keys_not_lower_fixed :
    ∀ p ∈ feature_mapping, pyLower p.1 ≠ p.1 := by decide

theorem lookup_pyLower_feature_mapping (s : String) :
    List.lookup (pyLower s) feature_mapping = none := by
  apply lookup_eq_none_of_keys_ne
  intro p hp heq
  apply feature_keys_not_lower_fixed p hp
  rw [heq, pyLower_idem]

theorem translateFeature_fixes_translated (f : String) :
    translateFeature (translateFeature f) = translateFeature f := by
  unfold translateFeature
  cases h : List.lookup f feature_mapping with
  | some v =>
    have hv : pyLower v = v := feature_values_lower_fixed v (lookup_val_mem h)
    have hnone : List.lookup v feature_mapping = none := by
      rw [← hv]
      exact lookup_pyLower_feature_mapping v
    simp [hnone, hv]
  | none =>
    simp [lookup_pyLower_feature_mapping f, pyLower_idem]

/-- C10: the feature-name translation is idempotent on whole name lists:
translating twice is translating once, because every translated name is
already lowercase and no lowercase name is a key of the mapping table. -/
theorem translate_features_idempotent (names : List String) :
    (names.map translateFeature).map translateFeature = names.map translateFeature := by
  induction names with
  | nil => rfl
  | cons n ns ih =>
    simp only [List.map_cons, translateFeature_fixes_translated, ih]

/-! ## Scaler validation (`ScalerTester`) -/

/-- `ScalerTester.feature_order`: the ten canonical feature names, fixed
order. -/
def feature_order : List String :=
  [("fuelconsumption"), ("vibrationlevel"), ("humidity"), ("pressure"),
   ("poweroutput"), ("operatinghours"), ("timestamp_epoch"), ("hour"),
   ("dayofweek"), ("month")]

/-- A deserialized scaler as the tester sees it: its `transform`, which
may raise. -/
structure ScalerArtifact where
  transform : List ℚ → Except Unit (List ℚ)

/-- The single-row feature vector of `test_scaler_with_real_data`:
`[features_dict.get(f, 0.0) for f in self.feature_order]`. -/
def buildFeatureVector (features_dict : List (String × ℚ)) : List ℚ :=
  feature_order.map (fun f => (List.lookup f features_dict).getD 0)

/-- `ScalerTester.test_scaler_with_real_data`.  The argument is the file
at `scaler_path` (`none` when missing).  The transformed vector is only
logged; every path of the function falls through to the implicit
`return None`, and any failure is caught by the `try/except`. -/
def test_scaler_with_real_data (scaler_file : Option ScalerArtifact)
    (features_dict : List (String × ℚ)) : Option (List ℚ) :=
  match scaler_file with
  | none => none
  | some scaler =>
    match scaler.transform (buildFeatureVector features_dict) with
    | Except.ok _scaled => none
    | Except.error _ => none

/-- A scaler whose transform succeeds and returns its input unchanged. -/
def idScaler : ScalerArtifact := { transform := fun v => Except.ok v }

/-- C6 (counterexample): with an existing scaler whose transform
succeeds, the validate operation still yields no result — the length-10
transformed vector is computed and logged but never returned. -/
theorem test_scaler_no_result_on_success :
    test_scaler_with_real_data (some idScaler) [] = none
    ∧ idScaler.transform (buildFeatureVector []) = Except.ok (buildFeatureVector [])
    ∧ (buildFeatureVector []).length = 10 :=
  ⟨rfl, rfl, rfl⟩

/-- C6 (amended): the validate operation builds the 10-slot feature
vector from the ten canonical names in fixed order, defaulting any
feature absent from the mapping to 0.0, and never raises; but it returns
none in every case — also when the transform succeeds (the result is
only logged), and on a missing scaler file or transform failure. -/
theorem test_scaler_behaviour (sc : Option ScalerArtifact) (fd : List (String × ℚ)) :
    test_scaler_with_real_data sc fd = none
    ∧ (buildFeatureVector fd).length = 10
    ∧ ∀ (i : Nat) (f : String), feature_order[i]? = some f →
        List.lookup f fd = none → (buildFeatureVector fd)[i]? = some 0 := by
  refine ⟨?_, ?_, ?_⟩
  · cases sc with
    | none => rfl
    | some s =>
      cases h : s.transform (buildFeatureVector fd) with
      | ok v => simp [test_scaler_with_real_data, h]
      | error e => simp [test_scaler_with_real_data, h]
  · simp [buildFeatureVector, feature_order]
  · intro i f hi hf
    unfold buildFeatureVector
    rw [List.getElem?_map, hi]
    simp [hf]

theorem test_scaler_behaviour_witness :
    test_scaler_with_real_data none [] = none
    ∧ (buildFeatureVector []).length = 10
    ∧ (buildFeatureVector [])[0]? = some 0 :=
  ⟨(test_scaler_behaviour none []).1,
   (test_scaler_behaviour none []).2.1,
   (test_scaler_behaviour none []).2.2 0 ("fuelconsumption") rfl rfl⟩

/-! ## Query façade (`Database` in `db.py`) -/

/-- A row of the per-machine latest-temperature query. -/
structure TempRec where
  machineid : Option String
  temperature : ℚ
  timestamp_epoch : Option Int
  timestamp : Option String
deriving DecidableEq, Repr

/-- `Database.get_machines_with_highest_temperature`: no `try/except` —
a failing query propagates; on success, sort the latest-per-machine rows
by temperature descending and truncate.  (`sorted(..., reverse=True)` is
a stable descending sort.) -/
def get_machines_with_highest_temperature (q : Except Unit (List TempRec))
    (limit : Nat) : Except Unit (List TempRec) :=
  match q with
  | Except.error e => Except.error e
  | Except.ok all_machines =>
      Except.ok
        ((all_machines.mergeSort (fun a b => decide (b.temperature ≤ a.temperature))).take
          limit)

/-- A row of the per-machine latest-humidity query. -/
structure HumRec where
  machineid : Option String
  humidity : Option ℚ
  timestamp_epoch : Option Int
  timestamp : Option String
deriving DecidableEq, Repr

/-- The sort key of `get_machines_with_lowest_humidity`:
`x['humidity'] if x['humidity'] is not None else float('inf')`,
ascending. -/
def humKeyLE : Option ℚ → Option ℚ → Bool
  | some x, some y => decide (x ≤ y)
  | some _, none => true
  | none, some _ => false
  | none, none => true

/-- `Database.get_machines_with_lowest_humidity`: defensive variant —
wrapped in `try/except` returning `[]`, with an integer-result guard
(`execute_query` returns a rowcount for non-select statements) and an
emptiness guard. -/
def get_machines_with_lowest_humidity (q : Except Unit (Sum Nat (List HumRec)))
    (limit : Nat) : List HumRec :=
  match q with
  | Except.error _ => []
  | Except.ok (Sum.inl _) => []
  | Except.ok (Sum.inr all_machines) =>
    if all_machines.isEmpty then []
    else (all_machines.mergeSort (fun a b => humKeyLE a.humidity b.humidity)).take limit

/-- A row of the per-machine comparison-statistics query. -/
structure StatsRec where
  machineid : Option String
  record_count : Nat
  avg_temperature : Option ℚ
  max_temperature : Option ℚ
  avg_humidity : Option ℚ
  max_humidity : Option ℚ
  avg_vibration : Option ℚ
  max_vibration : Option ℚ
  avg_fuel : Option ℚ
  max_fuel : Option ℚ
  last_update : Option Int
deriving DecidableEq, Repr

/-- `Database.get_machine_comparison_stats`: the body is a single
`execute_query` call returned as-is — no handler, so a failure
propagates. -/
def get_machine_comparison_stats (q : Except Unit (List StatsRec)) :
    Except Unit (List StatsRec) :=
  q

/-- A row of the per-machine latest-humidity query of the non-defensive
`get_machines_with_highest_humidity` (the SQL filters
`humidity IS NOT NULL`, and the function has no `None` guard). -/
structure HumTopRec where
  machineid : Option String
  humidity : ℚ
  timestamp_epoch : Option Int
  timestamp : Option String
deriving DecidableEq, Repr

/-- `Database.get_machines_with_highest_humidity`: no `try/except` — a
failing query propagates; on success, stable sort by humidity descending
and truncate. -/
def get_machines_with_highest_humidity (q : Except Unit (List HumTopRec))
    (limit : Nat) : Except Unit (List HumTopRec) :=
  match q with
  | Except.error e => Except.error e
  | Except.ok all_machines =>
      Except.ok
        ((all_machines.mergeSort (fun a b => decide (b.humidity ≤ a.humidity))).take limit)

/-- A row of the per-machine latest-vibration queries
(`vibrationlevel AS vibration`, filtered `IS NOT NULL`). -/
structure VibRec where
  machineid : Option String
  vibration : ℚ
  timestamp_epoch : Option Int
  timestamp : Option String
deriving DecidableEq, Repr

/-- `Database.get_machines_with_highest_vibration`: no `try/except` — a
failing query propagates; on success, stable sort by vibration
descending and truncate. -/
def get_machines_with_highest_vibration (q : Except Unit (List VibRec))
    (limit : Nat) : Except Unit (List VibRec) :=
  match q with
  | Except.error e => Except.error e
  | Except.ok all_machines =>
      Except.ok
        ((all_machines.mergeSort (fun a b => decide (b.vibration ≤ a.vibration))).take limit)

/-- `Database.get_machines_with_lowest_vibration`: no `try/except` — a
failing query propagates; on success, stable sort by vibration ascending
and truncate. -/
def get_machines_with_lowest_vibration (q : Except Unit (List VibRec))
    (limit : Nat) : Except Unit (List VibRec) :=
  match q with
  | Except.error e => Except.error e
  | Except.ok all_machines =>
      Except.ok
        ((all_machines.mergeSort (fun a b => decide (a.vibration ≤ b.vibration))).take limit)

/-- A row of the per-machine latest-fuel-consumption queries
(`fuelconsumption AS fuel`, filtered `IS NOT NULL`). -/
structure FuelRec where
  machineid : Option String
  fuel : ℚ
  timestamp_epoch : Option Int
  timestamp : Option String
deriving DecidableEq, Repr

/-- `Database.get_machines_with_highest_fuel_consumption`: no
`try/except` — a failing query propagates; on success, stable sort by
fuel descending and truncate. -/
def get_machines_with_highest_fuel_consumption (q : Except Unit (List FuelRec))
    (limit : Nat) : Except Unit (List FuelRec) :=
  match q with
  | Except.error e => Except.error e
  | Except.ok all_machines =>
      Except.ok ((all_machines.mergeSort (fun a b => decide (b.fuel ≤ a.fuel))).take limit)

/-- `Database.get_machines_with_lowest_fuel_consumption`: no
`try/except` — a failing query propagates; on success, stable sort by
fuel ascending and truncate. -/
def get_machines_with_lowest_fuel_consumption (q : Except Unit (List FuelRec))
    (limit : Nat) : Except Unit (List FuelRec) :=
  match q with
  | Except.error e => Except.error e
  | Except.ok all_machines =>
      Except.ok ((all_machines.mergeSort (fun a b => decide (a.fuel ≤ b.fuel))).take limit)

/-- `Database.get_machines_with_lowest_temperature`: no `try/except` — a
failing query propagates; on success, stable sort by temperature
ascending and truncate (same row shape as the highest-temperature
query). -/
def get_machines_with_lowest_temperature (q : Except Unit (List TempRec))
    (limit : Nat) : Except Unit (List TempRec) :=
  match q with
  | Except.error e => Except.error e
  | Except.ok all_machines =>
      Except.ok
        ((all_machines.mergeSort (fun a b => decide (a.temperature ≤ b.temperature))).take
          limit)

/-- A row of the status-filter query. -/
structure StatusRec where
  machineid : Option String
  status : Option String
  enginetemperature : Option ℚ
  fuelconsumption : Option ℚ
  vibrationlevel : Option ℚ
  humidity : Option ℚ
  timestamp_epoch : Option Int
  timestamp : Option String
deriving DecidableEq, Repr

/-- `Database.get_machines_by_status`: wrapped in `try/except` returning
`[]`; guards against an integer result and an empty result; then
re-validates each row in-process — a truthy `machineid` and `status`
are required, and with a filter the lowercased filter must be a
substring of the lowercased status. -/
def get_machines_by_status (q : Except Unit (Sum Nat (List StatusRec)))
    (status_filter : Option String) : List StatusRec :=
  match q with
  | Except.error _ => []
  | Except.ok (Sum.inl _) => []
  | Except.ok (Sum.inr result) =>
    if result.isEmpty then []
    else
      result.filter (fun machine =>
        pyTruthy machine.machineid && pyTruthy machine.status &&
          match status_filter with
          | some filt => pyContains (pyLower filt) (pyLower (machine.status.getD ("")))
          | none => true)

/-- C5 (counterexample): a failure of the underlying query is NOT caught
by `get_machines_with_highest_temperature` — the exception propagates to
the caller instead of degrading to an empty result. -/
theorem highest_temperature_propagates_failure :
    get_machines_with_highest_temperature (Except.error ()) 5 = Except.error () :=
  rfl

/-- C5 (amended): only `get_machines_by_status` and
`get_machines_with_lowest_humidity` catch underlying-query failures and
degrade to an empty result; every other façade operation — the
highest/lowest rankings by temperature, humidity, vibration and fuel
(other than lowest-humidity) and the comparison stats — has no handler
and propagates the failure to the caller. -/
theorem facade_error_handling_split (filt : Option String) (limit : Nat) :
    get_machines_by_status (Except.error ()) filt = []
    ∧ get_machines_with_lowest_humidity (Except.error ()) limit = []
    ∧ get_machines_with_highest_temperature (Except.error ()) limit = Except.error ()
    ∧ get_machines_with_lowest_temperature (Except.error ()) limit = Except.error ()
    ∧ get_machines_with_highest_humidity (Except.error ()) limit = Except.error ()
    ∧ get_machines_with_highest_vibration (Except.error ()) limit = Except.error ()
    ∧ get_machines_with_lowest_vibration (Except.error ()) limit = Except.error ()
    ∧ get_machines_with_highest_fuel_consumption (Except.error ()) limit = Except.error ()
    ∧ get_machines_with_lowest_fuel_consumption (Except.error ()) limit = Except.error ()
    ∧ get_machine_comparison_stats (Except.error ()) = Except.error () :=
  ⟨rfl, rfl, rfl, rfl, rfl, rfl, rfl, rfl, rfl, rfl⟩

/-- C9: every record returned by `get_machines_by_status` — with or
without a filter — has a truthy (present and non-empty) `machineid` and
`status`: the in-process re-validation drops all other rows. -/
theorem by_status_records_validated (q : Except Unit (Sum Nat (List StatusRec)))
    (filt : Option String) (m : StatusRec)
    (hm : m ∈ get_machines_by_status q filt) :
    pyTruthy m.machineid = true ∧ pyTruthy m.status = true := by
  cases q with
  | error e => simp [get_machines_by_status] at hm
  | ok r =>
    cases r with
    | inl n => simp [get_machines_by_status] at hm
    | inr result =>
      simp only [get_machines_by_status] at hm
      by_cases he : result.isEmpty
      · rw [if_pos he] at hm
        simp at hm
      · rw [if_neg he] at hm
        have hb := (List.mem_filter.mp hm).2
        simp only [Bool.and_eq_true] at hb
        exact ⟨hb.1.1, hb.1.2⟩

/-- A fully valid status row. -/
def goodStatusRec : StatusRec :=
  { machineid := some ("M1"), status := some ("Idle"), enginetemperature := none,
    fuelconsumption := none, vibrationlevel := none, humidity := none,
    timestamp_epoch := none, timestamp := none }

theorem by_status_records_validated_witness :
    pyTruthy goodStatusRec.machineid = true ∧ pyTruthy goodStatusRec.status = true :=
  by_status_records_validated (Except.ok (Sum.inr [goodStatusRec])) none goodStatusRec
    (by decide)
